import Mathlib

/-!
# Verification of the LTC2983Manager temperature-chip driver

A shallow embedding of `LTC2983Manager.cpp` / `LTC2983Manager.h`.  The driver
is a single-threaded state machine over a serial (SPI) bus: we model the
object's fields as a `LTCState`, the bus as an oracle of responses
(`BusOracle`), and every operation as a function producing its return value,
the successor state, and the list of externally visible events (`BusEvent`)
it emits, in order.

External collaborators that are declared in `LTC2983_support_functions.h` but
whose implementations are not part of the four sources (the bus transfer
primitives, `assign_channel`, `measure_channel`, `get_result`) are modelled
from the spec as single events plus oracle responses, as are the numeric
values of the register constants from `LTC2983_configuration_constants.h`
(that header is not among the sources; the spec fixes only the field
structure of the 32-bit assignment words, which is what we encode).
-/

/- ### Constants -/

/-- Sentinel `TEMPERATURE_ERROR = -300.0f` (LTC2983Manager.h line 46).
Temperatures are modelled as rationals: no claim performs float arithmetic,
only equality with this sentinel. -/
def TEMPERATURE_ERROR : Rat := -300

/-- The `Sensor_Type_t` enum of LTC2983Manager.h lines 54-59, kept as its raw
C++ underlying value (0,1,2,3) so that out-of-enumeration values — which the
caller can store into the public `channel_assignments` array — are
representable, as `Configure`'s `default:` branch requires. -/
def UNUSED_CHANNEL : Nat := 0

/-- Enum value 1 of `Sensor_Type_t`. -/
def SENSE_RESISTOR_1000 : Nat := 1

/-- Enum value 2 of `Sensor_Type_t`. -/
def THERMISTOR_44006 : Nat := 2

/-- Enum value 3 of `Sensor_Type_t`. -/
def RTD_PT_100 : Nat := 3

/-- Modelled from the spec: `LTC2983_configuration_constants.h` is not among
the sources.  "A single combined command/status register" (§6); the numeric
address is opaque to every claim. -/
def COMMAND_STATUS_REGISTER : Nat := 0x000

/-- Modelled from the spec: sleep command byte written to the command/status
register by `Sleep` (§4.5); numeric value opaque to every claim. -/
def SLEEP_BYTE : Nat := 0x97

/-- Modelled from the spec: "start conversion on channel N" command byte,
or-ed with the channel number (§4.3); numeric value opaque to every claim. -/
def CONVERSION_CONTROL_BYTE : Nat := 0x80

/-- Modelled from the spec: global-configuration bit for Celsius unit (§4.2);
numeric value opaque to every claim. -/
def TEMP_UNIT__C : Nat := 0x04

/-- Modelled from the spec: global-configuration bit for 50/60 Hz rejection
(§4.2); numeric value opaque to every claim. -/
def REJECTION__50_60_HZ : Nat := 0x02

/- ### Assignment-word constants

Modelled from the spec: the numeric values come from the missing
`LTC2983_configuration_constants.h`.  The spec fixes the structure (§4.1,
§8): a 5-bit sense-resistor channel field at a designated position
(channels run 1..20, so 5 bits suffice), a sensor-type tag field, and
per-type flag fields, mutually disjoint so each is "recoverable by bit-mask
extraction".  We place the type tag in bits 31:27 and the sense-channel
field in bits 26:22 (its LSB is the `*_RSENSE_CHANNEL_LSB` shift used by the
source), with the per-type flags in disjoint fields below bit 22. -/

/-- Modelled from the spec: sensor-type tag "sense resistor". -/
def SENSOR_TYPE__SENSE_RESISTOR : Nat := 29 <<< 27

/-- Modelled from the spec: resistance-class tag for the fixed 1000 Ω sense
resistor, occupying bits below the sense-channel field. -/
def SENSE_RESISTOR_1K : Nat := 1000 * 1024

/-- Modelled from the spec: sensor-type tag for the 44006 10 kΩ @ 25 °C
thermistor. -/
def SENSOR_TYPE__THERMISTOR_44006_10K_25C : Nat := 22 <<< 27

/-- Modelled from the spec: LSB position of the thermistor's 5-bit
sense-resistor channel field. -/
def THERMISTOR_RSENSE_CHANNEL_LSB : Nat := 22

/-- Modelled from the spec: differential-input flag for thermistors. -/
def THERMISTOR_DIFFERENTIAL : Nat := 1 <<< 21

/-- Modelled from the spec: thermistor excitation mode "shared, no
rotation". -/
def THERMISTOR_EXCITATION_MODE__SHARING_NO_ROTATION : Nat := 1 <<< 19

/-- Modelled from the spec: thermistor excitation current "autorange". -/
def THERMISTOR_EXCITATION_CURRENT__AUTORANGE : Nat := 12 <<< 15

/-- Modelled from the spec: sensor-type tag for the PT-100 RTD. -/
def SENSOR_TYPE__RTD_PT_100 : Nat := 12 <<< 27

/-- Modelled from the spec: LSB position of the RTD's 5-bit sense-resistor
channel field. -/
def RTD_RSENSE_CHANNEL_LSB : Nat := 22

/-- Modelled from the spec: RTD 2-wire configuration tag. -/
def RTD_NUM_WIRES__2_WIRE : Nat := 1 <<< 20

/-- Modelled from the spec: RTD excitation mode "no rotation, sharing". -/
def RTD_EXCITATION_MODE__NO_ROTATION_SHARING : Nat := 1 <<< 18

/-- Modelled from the spec: RTD excitation current fixed at 50 µA. -/
def RTD_EXCITATION_CURRENT__50UA : Nat := 3 <<< 14

/-- Modelled from the spec: RTD standard curve "American". -/
def RTD_STANDARD__AMERICAN : Nat := 1 <<< 12

/- ### Events, state, oracle -/

/-- Externally visible events emitted by the driver, in program order.
`writeByte`/`readByte` are `transfer_byte` transactions (modelled from the
spec: the transfer primitives are external collaborators), `assignWrite` is
`assign_channel`'s write to a channel's assignment register, `measure` is the
external blocking `measure_channel` (start conversion, poll to completion,
read result), `readResult` is `get_result`.  `resetLow`/`resetHigh` are GPIO
writes to the reset line, `delayMs` a timing delay, `serialErr` the
`Serial.println` error report of `Configure`'s `default:` branch. -/
inductive BusEvent where
  | writeByte (addr : Nat) (data : Nat)
  | readByte (addr : Nat)
  | assignWrite (channel : Nat) (data : Nat)
  | measure (channel : Nat)
  | readResult (channel : Nat)
  | resetLow
  | resetHigh
  | delayMs (ms : Nat)
  | serialErr
  deriving DecidableEq, Repr

/-- Whether an event is a transaction on the serial bus (GPIO reset pulses,
delays and serial logging are not bus activity). -/
def BusEvent.isBusTxn : BusEvent → Bool
  | .writeByte _ _ => true
  | .readByte _ => true
  | .assignWrite _ _ => true
  | .measure _ => true
  | .readResult _ => true
  | _ => false

/-- The mutable fields of the `LTC2983Manager` object (LTC2983Manager.h
lines 93-116).  The two `[21]` arrays are total maps on `Fin 21`; the SPI
port selector and pins are carried for fidelity but drive no claim. -/
structure LTCState where
  channel_assignments : Fin 21 → Nat
  channel_temperatures : Fin 21 → Rat
  chip_select_pin : Int
  reset_pin : Int
  therm_sense_channel : Nat
  rtd_sense_channel : Nat
  spi : Nat
  sleeping : Bool
  measurement_finished : Bool
  deriving DecidableEq

/-- Responses of the external device/bus, fixed for the duration of one
operation: the status byte returned by a command/status-register read, and
the decoded temperatures delivered by the external `get_result` and
`measure_channel` helpers for each channel. -/
structure BusOracle where
  statusByte : Nat
  getResult : Nat → Rat
  measureTemp : Nat → Rat

/- ### Constructor (LTC2983Manager.cpp lines 35-65) -/

/-- The constructor `LTC2983Manager(cs_pin, rst_pin, therm_sense_ch,
rtd_sense_ch)`: initialize every channel to `UNUSED_CHANNEL` and every
temperature to `TEMPERATURE_ERROR`; then, for each sense parameter strictly
between 0 and 21, record it and assign its channel `SENSE_RESISTOR_1000`,
otherwise record 0.  The sense parameters are `uint8_t`, so callers supply
values below 256. -/
def LTC2983Manager_construct (cs_pin rst_pin : Int)
    (therm_sense_ch rtd_sense_ch : Nat) : LTCState :=
  let base : LTCState :=
    { channel_assignments := fun _ => UNUSED_CHANNEL
      channel_temperatures := fun _ => TEMPERATURE_ERROR
      chip_select_pin := cs_pin
      reset_pin := rst_pin
      therm_sense_channel := 0
      rtd_sense_channel := 0
      spi := 0
      sleeping := false
      measurement_finished := false }
  let s1 :=
    if h : 0 < therm_sense_ch ∧ therm_sense_ch < 21 then
      { base with
        therm_sense_channel := therm_sense_ch
        channel_assignments :=
          Function.update base.channel_assignments ⟨therm_sense_ch, h.2⟩
            SENSE_RESISTOR_1000 }
    else base
  if h : 0 < rtd_sense_ch ∧ rtd_sense_ch < 21 then
    { s1 with
      rtd_sense_channel := rtd_sense_ch
      channel_assignments :=
        Function.update s1.channel_assignments ⟨rtd_sense_ch, h.2⟩
          SENSE_RESISTOR_1000 }
  else s1

/- ### Channel assignment encoders (LTC2983Manager.cpp lines 219-254) -/

/-- The 32-bit word built by `AssignSenseResistor`. -/
def AssignSenseResistor_data : Nat :=
  SENSOR_TYPE__SENSE_RESISTOR ||| SENSE_RESISTOR_1K

/-- The 32-bit word built by `AssignThermistor` (lines 232-237). -/
def AssignThermistor_data (therm_sense_channel : Nat) : Nat :=
  SENSOR_TYPE__THERMISTOR_44006_10K_25C |||
  (therm_sense_channel <<< THERMISTOR_RSENSE_CHANNEL_LSB) |||
  THERMISTOR_DIFFERENTIAL |||
  THERMISTOR_EXCITATION_MODE__SHARING_NO_ROTATION |||
  THERMISTOR_EXCITATION_CURRENT__AUTORANGE

/-- The 32-bit word built by `AssignRTD` (lines 245-251). -/
def AssignRTD_data (rtd_sense_channel : Nat) : Nat :=
  SENSOR_TYPE__RTD_PT_100 |||
  (rtd_sense_channel <<< RTD_RSENSE_CHANNEL_LSB) |||
  RTD_NUM_WIRES__2_WIRE |||
  RTD_EXCITATION_MODE__NO_ROTATION_SHARING |||
  RTD_EXCITATION_CURRENT__50UA |||
  RTD_STANDARD__AMERICAN

/- ### Configuration sequencer (LTC2983Manager.cpp lines 192-217) -/

/-- The events emitted for one channel by the `switch` of `Configure`
(lines 200-215): nothing for `UNUSED_CHANNEL`, one assignment-register write
for the three supported types, and a serial error report for any value
outside the enumeration. -/
def channelConfigTrace (s : LTCState) (c : Fin 21) : List BusEvent :=
  if s.channel_assignments c = UNUSED_CHANNEL then []
  else if s.channel_assignments c = SENSE_RESISTOR_1000 then
    [BusEvent.assignWrite c.val AssignSenseResistor_data]
  else if s.channel_assignments c = THERMISTOR_44006 then
    [BusEvent.assignWrite c.val (AssignThermistor_data s.therm_sense_channel)]
  else if s.channel_assignments c = RTD_PT_100 then
    [BusEvent.assignWrite c.val (AssignRTD_data s.rtd_sense_channel)]
  else [BusEvent.serialErr]

/-- The assignment-register word `Configure` is expected to write for a
channel, by its assignment: `none` for `UNUSED_CHANNEL` and for values
outside the enumeration (which produce no write). -/
def expectedAssignData (s : LTCState) (c : Fin 21) : Option Nat :=
  if s.channel_assignments c = SENSE_RESISTOR_1000 then
    some AssignSenseResistor_data
  else if s.channel_assignments c = THERMISTOR_44006 then
    some (AssignThermistor_data s.therm_sense_channel)
  else if s.channel_assignments c = RTD_PT_100 then
    some (AssignRTD_data s.rtd_sense_channel)
  else none

/-- The channel indices 1..20 in the ascending order of `Configure`'s loop
(`for (channel = 1; channel < 21; channel++)`). -/
def configChannels : List (Fin 21) :=
  [1, 2, 3, 4, 5, 6, 7, 8, 9, 10, 11, 12, 13, 14, 15, 16, 17, 18, 19, 20]

/-- The body of `Configure` past the sleep check (lines 194-216): the two
device-wide register writes, then the channel loop.  The object state is
unchanged. -/
def Configure_body (s : LTCState) : LTCState × List BusEvent :=
  (s, [BusEvent.writeByte 0xF0 (TEMP_UNIT__C ||| REJECTION__50_60_HZ),
       BusEvent.writeByte 0xFF 0]
      ++ (configChannels.map (channelConfigTrace s)).flatten)

/-- Operation `WakeUp` (lines 97-105): pulse the reset line low then high with the
fixed delays, clear the sleeping flag, then rerun `Configure`.  Since the
flag is already cleared, the inner `Configure` call's sleep check fails and
it is exactly `Configure_body`. -/
def WakeUp (s : LTCState) : LTCState × List BusEvent :=
  let cfg := Configure_body { s with sleeping := false }
  (cfg.1,
   [BusEvent.resetLow, BusEvent.delayMs 100, BusEvent.resetHigh,
    BusEvent.delayMs 200] ++ cfg.2)

/-- Operation `Configure` (lines 192-217): the sleep check
`if (_sleeping) WakeUp();` on line 193 has no `return`, so when the device
was asleep control falls through after `WakeUp` — whose inner `Configure`
call already ran the body once, the flag having been cleared — and the
device-wide writes and the channel loop run a second time. -/
def Configure (s : LTCState) : LTCState × List BusEvent :=
  if s.sleeping then
    let w := WakeUp s
    let b := Configure_body w.1
    (b.1, w.2 ++ b.2)
  else Configure_body s

/- ### Power and measurement operations -/

/-- Operation `Sleep` (lines 92-95): write the sleep byte to the command/status
register and set the sleeping flag. -/
def Sleep (s : LTCState) : LTCState × List BusEvent :=
  ({ s with sleeping := true },
   [BusEvent.writeByte COMMAND_STATUS_REGISTER SLEEP_BYTE])

/-- Operation `MeasureChannel` (lines 125-136): implicit `WakeUp` when sleeping, then
read the channel's assignment; only `THERMISTOR_44006` and `RTD_PT_100` are
measured (via the external blocking `measure_channel`), everything else
yields `TEMPERATURE_ERROR`; the result is stored in `channel_temperatures`
and returned.  The `uint8_t` argument indexes the 21-element arrays with no
bounds check, so an argument ≥ 21 is an out-of-bounds access: the embedding
returns `none` there. -/
def MeasureChannel (channel_number : Nat) (s : LTCState) (o : BusOracle) :
    Option (Rat × LTCState × List BusEvent) :=
  let w := if s.sleeping then WakeUp s else (s, [])
  if h : channel_number < 21 then
    let assignment := w.1.channel_assignments ⟨channel_number, h⟩
    let m : Rat × List BusEvent :=
      if assignment = THERMISTOR_44006 ∨ assignment = RTD_PT_100 then
        (o.measureTemp channel_number, [BusEvent.measure channel_number])
      else (TEMPERATURE_ERROR, [])
    some (m.1,
      { w.1 with
        channel_temperatures :=
          Function.update w.1.channel_temperatures ⟨channel_number, h⟩ m.1 },
      w.2 ++ m.2)
  else none

/-- Operation `StartMeasurement` (lines 139-143): clear the finished flag and write
the conversion-start command for the channel. -/
def StartMeasurement (channel_number : Nat) (s : LTCState) :
    LTCState × List BusEvent :=
  ({ s with measurement_finished := false },
   [BusEvent.writeByte COMMAND_STATUS_REGISTER
      (CONVERSION_CONTROL_BYTE ||| channel_number)])

/-- Operation `FinishedMeasurement` (lines 145-154): one status-register read; bit 6
of the status byte reports completion. -/
def FinishedMeasurement (s : LTCState) (o : BusOracle) :
    Bool × LTCState × List BusEvent :=
  (o.statusByte &&& 0x40 ≠ 0, s, [BusEvent.readByte COMMAND_STATUS_REGISTER])

/-- Operation `ReadMeasurementResult` (lines 156-164): clear the finished flag, check
`FinishedMeasurement`; when the completion bit is clear return
`TEMPERATURE_ERROR`, else read the result via the external `get_result`. -/
def ReadMeasurementResult (channel_number : Nat) (s : LTCState)
    (o : BusOracle) : Rat × LTCState × List BusEvent :=
  let s1 := { s with measurement_finished := false }
  let fm := FinishedMeasurement s1 o
  if fm.1 then
    (o.getResult channel_number, fm.2.1,
     fm.2.2 ++ [BusEvent.readResult channel_number])
  else
    (TEMPERATURE_ERROR, fm.2.1, fm.2.2)

/-- Operation `InterruptHandler` (lines 166-169): set the advisory finished flag. -/
def InterruptHandler (s : LTCState) : LTCState :=
  { s with measurement_finished := true }

/-- Operation `MeasureAllChannels` (lines 117-123) measures channels 1..20 in order;
included for completeness of the interface. -/
def MeasureAllChannels (s : LTCState) (o : BusOracle) :
    Option (LTCState × List BusEvent) :=
  configChannels.foldl
    (fun acc c =>
      acc.bind fun st =>
        (MeasureChannel c.val st.1 o).map fun r => (r.2.1, st.2 ++ r.2.2))
    (some (s, []))

/- ### Concrete example states and oracles -/

/-- A freshly constructed manager: pins 10/9, thermistor sense resistor on
channel 5, RTD sense resistor on channel 2. -/
def exState : LTCState := LTC2983Manager_construct 10 9 5 2

/-- A device whose status byte has the completion bit (bit 6) clear. -/
def exOracleBusy : BusOracle :=
  { statusByte := 0, getResult := fun _ => 21, measureTemp := fun _ => 25 }

/-- A device whose status byte has the completion bit (bit 6) set. -/
def exOracleReady : BusOracle :=
  { statusByte := 0x40, getResult := fun _ => 21, measureTemp := fun _ => 25 }

/-- State `exState` with channel 7's assignment overwritten (through the public
`channel_assignments` array) with the value 9, outside the
`Sensor_Type_t` enumeration. -/
def badState : LTCState :=
  { exState with
    channel_assignments :=
      Function.update exState.channel_assignments ⟨7, by omega⟩ 9 }

/- ### Helper lemmas -/

/-- Operation `MeasureChannel` succeeds exactly on in-bounds channel numbers. -/
lemma MeasureChannel_isSome {c : Nat} (s : LTCState) (o : BusOracle)
    (h : c < 21) : (MeasureChannel c s o).isSome = true := by
  simp [MeasureChannel, h]

/-- Every event a channel contributes to `Configure`'s trace is either the
error report or an assignment-register write addressed to that very
channel, and `UNUSED_CHANNEL` channels contribute nothing. -/
lemma mem_channelConfigTrace {s : LTCState} {c : Fin 21} {e : BusEvent}
    (h : e ∈ channelConfigTrace s c) :
    e = BusEvent.serialErr ∨
      (∃ d, e = BusEvent.assignWrite c.val d) ∧
        s.channel_assignments c ≠ UNUSED_CHANNEL := by
  unfold channelConfigTrace at h
  split_ifs at h with h0 h1 h2 h3
  · simp at h
  · simp at h
    exact Or.inr ⟨⟨_, h⟩, h0⟩
  · simp at h
    exact Or.inr ⟨⟨_, h⟩, h0⟩
  · simp at h
    exact Or.inr ⟨⟨_, h⟩, h0⟩
  · simp at h
    exact Or.inl h

/-- A channel whose expected assignment word is defined contributes exactly
the write of that word. -/
lemma channelConfigTrace_of_expected {s : LTCState} {c : Fin 21} {w : Nat}
    (h : expectedAssignData s c = some w) :
    channelConfigTrace s c = [BusEvent.assignWrite c.val w] := by
  unfold expectedAssignData at h
  split_ifs at h with h1 h2 h3 <;> injection h with h <;> subst h <;>
    simp [channelConfigTrace, h1, UNUSED_CHANNEL, SENSE_RESISTOR_1000,
      THERMISTOR_44006, RTD_PT_100, *]

/-- A channel whose assignment value lies outside the enumeration
contributes exactly the serial error report. -/
lemma channelConfigTrace_of_bad {s : LTCState} {c : Fin 21}
    (h : 4 ≤ s.channel_assignments c) :
    channelConfigTrace s c = [BusEvent.serialErr] := by
  have h0 : s.channel_assignments c ≠ UNUSED_CHANNEL := by
    simp only [UNUSED_CHANNEL]; omega
  have h1 : s.channel_assignments c ≠ SENSE_RESISTOR_1000 := by
    simp only [SENSE_RESISTOR_1000]; omega
  have h2 : s.channel_assignments c ≠ THERMISTOR_44006 := by
    simp only [THERMISTOR_44006]; omega
  have h3 : s.channel_assignments c ≠ RTD_PT_100 := by
    simp only [RTD_PT_100]; omega
  simp [channelConfigTrace, h0, h1, h2, h3]

/-- Every channel index 1..20 appears in `Configure`'s loop. -/
lemma mem_configChannels : ∀ c : Fin 21, 1 ≤ c.val → c ∈ configChannels := by
  decide

/-- Running the configuration body does not change the object state. -/
lemma Configure_body_fst (s : LTCState) : (Configure_body s).1 = s := rfl

/-- Entered Active, `Configure` is exactly its body. -/
lemma Configure_trace_active (s : LTCState) (hs : s.sleeping = false) :
    Configure s = Configure_body s := by
  simp [Configure, hs]

/-- Entered Asleep, `Configure` wakes up (reset pulse plus one body run via
the inner `Configure` call) and then, by the fall-through, runs the body a
second time. -/
lemma Configure_trace_sleeping (s : LTCState) (hs : s.sleeping = true) :
    (Configure s).2 =
      [BusEvent.resetLow, BusEvent.delayMs 100, BusEvent.resetHigh,
       BusEvent.delayMs 200]
        ++ (Configure_body s).2 ++ (Configure_body s).2 := by
  have hCfg : (Configure_body { s with sleeping := false }).2 =
      (Configure_body s).2 := rfl
  simp [Configure, WakeUp, hs, Configure_body_fst, hCfg]

/-- No assignment-register write addressed to an `UNUSED_CHANNEL` channel
occurs in one run of the configuration body. -/
lemma assignWrite_not_mem_body {s : LTCState} {c : Fin 21} {d : Nat}
    (hc : s.channel_assignments c = UNUSED_CHANNEL) :
    BusEvent.assignWrite c.val d ∉ (Configure_body s).2 := by
  intro hmem
  simp only [Configure_body] at hmem
  rcases List.mem_append.1 hmem with h1 | h2
  · simp at h1
  · rw [List.mem_flatten] at h2
    obtain ⟨l, hl, hin⟩ := h2
    rw [List.mem_map] at hl
    obtain ⟨c', hc', rfl⟩ := hl
    rcases mem_channelConfigTrace hin with he | ⟨⟨d', hd⟩, hne⟩
    · simp at he
    · simp only [BusEvent.assignWrite.injEq] at hd
      exact hne (Fin.ext hd.1 ▸ hc)

/-- An event of one body run occurs in `Configure`'s trace, whatever the
entry state (asleep, the body runs — twice). -/
lemma mem_body_mem_Configure {s : LTCState} {e : BusEvent}
    (h : e ∈ (Configure_body s).2) : e ∈ (Configure s).2 := by
  cases hs : s.sleeping
  · rw [Configure_trace_active s hs]
    exact h
  · rw [Configure_trace_sleeping s hs]
    exact List.mem_append_right _ h

/-- A channel of the loop contributes its events to the body's trace. -/
lemma mem_flatten_body {s : LTCState} {e : BusEvent} {c : Fin 21}
    (hc : c ∈ configChannels) (h : e ∈ channelConfigTrace s c) :
    e ∈ (Configure_body s).2 := by
  simp only [Configure_body]
  refine List.mem_append_right _ ?_
  rw [List.mem_flatten]
  exact ⟨channelConfigTrace s c, List.mem_map_of_mem _ hc, h⟩

/- ### Claims -/

/-- C1 counterexample: `ReadMeasurementResult` called with the device's
completion bit clear (status byte 0) does return the sentinel, but it is
not free of register reads or side effects: its trace is a (nonempty)
status-register read, and it clears the `_measurement_finished` flag that a
prior `InterruptHandler` call had set. -/
theorem ReadMeasurementResult_premature_has_effects :
    (ReadMeasurementResult 7 (InterruptHandler exState) exOracleBusy).1 =
      TEMPERATURE_ERROR ∧
    (ReadMeasurementResult 7 (InterruptHandler exState) exOracleBusy).2.2 =
      [BusEvent.readByte COMMAND_STATUS_REGISTER] ∧
    (ReadMeasurementResult 7 (InterruptHandler exState) exOracleBusy).2.2 ≠
      [] ∧
    (ReadMeasurementResult 7 (InterruptHandler exState)
        exOracleBusy).2.1.measurement_finished ≠
      (InterruptHandler exState).measurement_finished := by
  refine ⟨rfl, rfl, by decide, by decide⟩

/-- C1 (amended): when the device's completion bit is not set,
`ReadMeasurementResult` returns the sentinel `TEMPERATURE_ERROR`, performs
exactly one bus transaction — the status-register read of the embedded
completion check, no result-register read — and its only state change is
clearing the advisory `_measurement_finished` flag. -/
theorem ReadMeasurementResult_premature (channel_number : Nat)
    (s : LTCState) (o : BusOracle) (h : o.statusByte &&& 0x40 = 0) :
    ReadMeasurementResult channel_number s o =
      (TEMPERATURE_ERROR, { s with measurement_finished := false },
       [BusEvent.readByte COMMAND_STATUS_REGISTER]) := by
  simp [ReadMeasurementResult, FinishedMeasurement, h]

/-- C1 witness: the amended statement at channel 7, a fresh state, and a
busy device. -/
theorem ReadMeasurementResult_premature_witness :
    ReadMeasurementResult 7 exState exOracleBusy =
      (TEMPERATURE_ERROR, { exState with measurement_finished := false },
       [BusEvent.readByte COMMAND_STATUS_REGISTER]) :=
  ReadMeasurementResult_premature 7 exState exOracleBusy (by decide)

/-- C2 counterexample: `MeasureChannel` on a channel whose assignment is
neither thermistor nor RTD does return `TEMPERATURE_ERROR`, but when the
device is asleep it is not free of bus transactions: the implicit wake-up
reruns the configuration sequencer, whose register writes are bus
transactions. -/
theorem MeasureChannel_unsupported_asleep_has_bus_activity :
    ((MeasureChannel 1 (Sleep exState).1 exOracleBusy).map fun r =>
        (r.1, r.2.2.any BusEvent.isBusTxn)) =
      some (TEMPERATURE_ERROR, true) := by
  decide

/-- C2 (amended): for a channel in 1..20 whose assignment is neither
`THERMISTOR_44006` nor `RTD_PT_100`, when the device is Active (not
asleep), `MeasureChannel` returns the sentinel `TEMPERATURE_ERROR` and its
event trace is empty — in particular it issues no bus transaction. -/
theorem MeasureChannel_unsupported (channel_number : Nat) (s : LTCState)
    (o : BusOracle) (h1 : 1 ≤ channel_number) (h2 : channel_number ≤ 20)
    (hs : s.sleeping = false)
    (ha1 : s.channel_assignments ⟨channel_number, by omega⟩ ≠
      THERMISTOR_44006)
    (ha2 : s.channel_assignments ⟨channel_number, by omega⟩ ≠ RTD_PT_100) :
    MeasureChannel channel_number s o =
      some (TEMPERATURE_ERROR,
        { s with
          channel_temperatures :=
            Function.update s.channel_temperatures
              ⟨channel_number, by omega⟩ TEMPERATURE_ERROR },
        []) := by
  have h : channel_number < 21 := by omega
  simp [MeasureChannel, h, hs, ha1, ha2]

/-- C2 witness: the amended statement at channel 1 (unused) of a fresh,
active manager. -/
theorem MeasureChannel_unsupported_witness :
    MeasureChannel 1 exState exOracleBusy =
      some (TEMPERATURE_ERROR,
        { exState with
          channel_temperatures :=
            Function.update exState.channel_temperatures
              ⟨1, by omega⟩ TEMPERATURE_ERROR },
        []) :=
  MeasureChannel_unsupported 1 exState exOracleBusy (by decide) (by decide)
    (by decide) (by decide) (by decide)

/-- C8: the value returned by `ReadMeasurementResult` does not depend on
the advisory `_measurement_finished` flag: states differing only in that
flag — e.g. with and without a prior `InterruptHandler` call — yield the
same result under the same bus responses. -/
theorem ReadMeasurementResult_ignores_flag (channel_number : Nat)
    (s : LTCState) (o : BusOracle) :
    (ReadMeasurementResult channel_number (InterruptHandler s) o).1 =
      (ReadMeasurementResult channel_number s o).1 ∧
    ∀ b1 b2 : Bool,
      (ReadMeasurementResult channel_number
          { s with measurement_finished := b1 } o).1 =
        (ReadMeasurementResult channel_number
          { s with measurement_finished := b2 } o).1 :=
  ⟨rfl, fun _ _ => rfl⟩

/-- C10: `MeasureChannel` performs no bounds validation: for any channel
number up to 20 the (unchecked) array accesses are in bounds and the
operation is defined, and for any channel number of 21 or more the access
to the 21-element arrays is out of bounds (the embedding's `none`). -/
theorem MeasureChannel_bounds (channel_number : Nat) (s : LTCState)
    (o : BusOracle) :
    (channel_number ≤ 20 →
      (MeasureChannel channel_number s o).isSome = true) ∧
    (21 ≤ channel_number → MeasureChannel channel_number s o = none) := by
  constructor
  · intro h
    exact MeasureChannel_isSome s o (by omega)
  · intro h
    have h' : ¬ channel_number < 21 := by omega
    simp [MeasureChannel, h']

/-- C5: after construction, every temperature entry is the error sentinel;
each internal sense-channel value is the parameter when it lies in 1..20
and 0 otherwise; the assignment table holds `SENSE_RESISTOR_1000` exactly
at the in-range sense parameters and `UNUSED_CHANNEL` everywhere else. -/
theorem LTC2983Manager_construct_spec (cs_pin rst_pin : Int)
    (therm_sense_ch rtd_sense_ch : Nat) :
    (∀ i : Fin 21,
      (LTC2983Manager_construct cs_pin rst_pin therm_sense_ch
          rtd_sense_ch).channel_temperatures i = TEMPERATURE_ERROR) ∧
    (LTC2983Manager_construct cs_pin rst_pin therm_sense_ch
        rtd_sense_ch).therm_sense_channel =
      (if 1 ≤ therm_sense_ch ∧ therm_sense_ch ≤ 20 then therm_sense_ch
       else 0) ∧
    (LTC2983Manager_construct cs_pin rst_pin therm_sense_ch
        rtd_sense_ch).rtd_sense_channel =
      (if 1 ≤ rtd_sense_ch ∧ rtd_sense_ch ≤ 20 then rtd_sense_ch else 0) ∧
    ∀ c : Fin 21,
      (LTC2983Manager_construct cs_pin rst_pin therm_sense_ch
          rtd_sense_ch).channel_assignments c =
        if (c.val = therm_sense_ch ∧ 1 ≤ therm_sense_ch ∧
              therm_sense_ch ≤ 20) ∨
           (c.val = rtd_sense_ch ∧ 1 ≤ rtd_sense_ch ∧ rtd_sense_ch ≤ 20)
        then SENSE_RESISTOR_1000 else UNUSED_CHANNEL := by
  refine ⟨fun i => ?_, ?_, ?_, fun c => ?_⟩ <;>
    (simp only [LTC2983Manager_construct]
     by_cases h1 : 0 < therm_sense_ch ∧ therm_sense_ch < 21 <;>
       by_cases h2 : 0 < rtd_sense_ch ∧ rtd_sense_ch < 21 <;>
         simp [h1, h2, Function.update_apply, Fin.ext_iff]) <;>
    split_ifs <;>
    first
      | rfl
      | omega

/-- C5 witness: constructing with a thermistor sense resistor on channel 5
and an out-of-range RTD sense parameter (42): channel 5 is assigned the
sense resistor, the RTD sense channel clamps to 0, channel 7 stays unused,
and channel 7's temperature is the sentinel. -/
theorem LTC2983Manager_construct_spec_witness :
    (LTC2983Manager_construct 10 9 5 42).channel_temperatures ⟨7, by omega⟩ =
      TEMPERATURE_ERROR ∧
    (LTC2983Manager_construct 10 9 5 42).therm_sense_channel =
      (if 1 ≤ 5 ∧ 5 ≤ 20 then 5 else 0) ∧
    (LTC2983Manager_construct 10 9 5 42).rtd_sense_channel =
      (if 1 ≤ 42 ∧ 42 ≤ 20 then 42 else 0) ∧
    (LTC2983Manager_construct 10 9 5 42).channel_assignments ⟨7, by omega⟩ =
      UNUSED_CHANNEL :=
  ⟨(LTC2983Manager_construct_spec 10 9 5 42).1 ⟨7, by omega⟩,
   (LTC2983Manager_construct_spec 10 9 5 42).2.1,
   (LTC2983Manager_construct_spec 10 9 5 42).2.2.1,
   by
    have h := (LTC2983Manager_construct_spec 10 9 5 42).2.2.2 ⟨7, by omega⟩
    simpa using h⟩

/-- C6: for a sense-resistor channel reference in 1..20, the thermistor
configuration word recovers the reference by shifting to the 5-bit field's
LSB and masking, and carries the 44006 type tag, the differential flag, the
shared-no-rotation excitation mode, and the autorange excitation current;
the RTD word analogously recovers the reference and carries the PT-100 tag,
2-wire configuration, no-rotation-sharing excitation, 50 µA current, and
the American curve. -/
theorem assignment_word_encoding (r : Nat) (h1 : 1 ≤ r) (h2 : r ≤ 20) :
    ((AssignThermistor_data r >>> THERMISTOR_RSENSE_CHANNEL_LSB) &&& 0x1F =
        r ∧
     AssignThermistor_data r &&& (0x1F <<< 27) =
        SENSOR_TYPE__THERMISTOR_44006_10K_25C ∧
     AssignThermistor_data r &&& THERMISTOR_DIFFERENTIAL =
        THERMISTOR_DIFFERENTIAL ∧
     AssignThermistor_data r &&&
        THERMISTOR_EXCITATION_MODE__SHARING_NO_ROTATION =
        THERMISTOR_EXCITATION_MODE__SHARING_NO_ROTATION ∧
     AssignThermistor_data r &&& THERMISTOR_EXCITATION_CURRENT__AUTORANGE =
        THERMISTOR_EXCITATION_CURRENT__AUTORANGE ∧
     AssignThermistor_data r < 2 ^ 32) ∧
    ((AssignRTD_data r >>> RTD_RSENSE_CHANNEL_LSB) &&& 0x1F = r ∧
     AssignRTD_data r &&& (0x1F <<< 27) = SENSOR_TYPE__RTD_PT_100 ∧
     AssignRTD_data r &&& RTD_NUM_WIRES__2_WIRE = RTD_NUM_WIRES__2_WIRE ∧
     AssignRTD_data r &&& RTD_EXCITATION_MODE__NO_ROTATION_SHARING =
        RTD_EXCITATION_MODE__NO_ROTATION_SHARING ∧
     AssignRTD_data r &&& RTD_EXCITATION_CURRENT__50UA =
        RTD_EXCITATION_CURRENT__50UA ∧
     AssignRTD_data r &&& RTD_STANDARD__AMERICAN = RTD_STANDARD__AMERICAN ∧
     AssignRTD_data r < 2 ^ 32) := by
  have H : ∀ x : Nat, x < 21 → 1 ≤ x →
      ((AssignThermistor_data x >>> THERMISTOR_RSENSE_CHANNEL_LSB) &&& 0x1F =
          x ∧
       AssignThermistor_data x &&& (0x1F <<< 27) =
          SENSOR_TYPE__THERMISTOR_44006_10K_25C ∧
       AssignThermistor_data x &&& THERMISTOR_DIFFERENTIAL =
          THERMISTOR_DIFFERENTIAL ∧
       AssignThermistor_data x &&&
          THERMISTOR_EXCITATION_MODE__SHARING_NO_ROTATION =
          THERMISTOR_EXCITATION_MODE__SHARING_NO_ROTATION ∧
       AssignThermistor_data x &&& THERMISTOR_EXCITATION_CURRENT__AUTORANGE =
          THERMISTOR_EXCITATION_CURRENT__AUTORANGE ∧
       AssignThermistor_data x < 2 ^ 32) ∧
      ((AssignRTD_data x >>> RTD_RSENSE_CHANNEL_LSB) &&& 0x1F = x ∧
       AssignRTD_data x &&& (0x1F <<< 27) = SENSOR_TYPE__RTD_PT_100 ∧
       AssignRTD_data x &&& RTD_NUM_WIRES__2_WIRE = RTD_NUM_WIRES__2_WIRE ∧
       AssignRTD_data x &&& RTD_EXCITATION_MODE__NO_ROTATION_SHARING =
          RTD_EXCITATION_MODE__NO_ROTATION_SHARING ∧
       AssignRTD_data x &&& RTD_EXCITATION_CURRENT__50UA =
          RTD_EXCITATION_CURRENT__50UA ∧
       AssignRTD_data x &&& RTD_STANDARD__AMERICAN = RTD_STANDARD__AMERICAN ∧
       AssignRTD_data x < 2 ^ 32) := by decide
  exact H r (by omega) h1

/-- C6 witness: the field properties at sense-resistor reference 5. -/
theorem assignment_word_encoding_witness :
    (AssignThermistor_data 5 >>> THERMISTOR_RSENSE_CHANNEL_LSB) &&& 0x1F =
      5 ∧
    (AssignRTD_data 5 >>> RTD_RSENSE_CHANNEL_LSB) &&& 0x1F = 5 :=
  ⟨(assignment_word_encoding 5 (by decide) (by decide)).1.1,
   (assignment_word_encoding 5 (by decide) (by decide)).2.1⟩

/-- C10 witness: in bounds at channel 20, out of bounds at channel 21. -/
theorem MeasureChannel_bounds_witness :
    (MeasureChannel 20 exState exOracleBusy).isSome = true ∧
    MeasureChannel 21 exState exOracleBusy = none :=
  ⟨(MeasureChannel_bounds 20 exState exOracleBusy).1 (by decide),
   (MeasureChannel_bounds 21 exState exOracleBusy).2 (by decide)⟩

/-- C3 counterexample: `Configure` entered while asleep (`Sleep()` then
`InitializeAndConfigure()` reaches this) runs the device-wide writes and
the channel loop twice — the 0xF0 unit/rejection write appears twice in
the trace — so the trace is not of the claimed once-through
device-writes-then-channels shape, and channel-assignment writes of the
first body run precede the second pair of device-wide writes. -/
theorem Configure_sleeping_runs_body_twice :
    (Configure (Sleep exState).1).2.count
        (BusEvent.writeByte 0xF0 (TEMP_UNIT__C ||| REJECTION__50_60_HZ)) =
      2 ∧
    (Configure (Sleep exState).1).2 ≠
      [BusEvent.resetLow, BusEvent.delayMs 100, BusEvent.resetHigh,
       BusEvent.delayMs 200]
        ++ ([BusEvent.writeByte 0xF0 (TEMP_UNIT__C ||| REJECTION__50_60_HZ),
             BusEvent.writeByte 0xFF 0]
            ++ (configChannels.map
                (channelConfigTrace (Sleep exState).1)).flatten) := by
  constructor <;> decide

/-- C3 (amended): entered Active — the state in which its reachable
callers normally run it, `WakeUp` clearing the flag first — `Configure`
emits the two device-wide register writes (unit/rejection at 0xF0, zero
conversion delay at 0xFF) first, then the contributions of channels 1..20
in ascending order, each dispatched by its assignment; and in every entry
state no assignment-register write addressed to an `UNUSED_CHANNEL`
channel is ever issued (entered Asleep, the fall-through repeats the
device writes and channel loop, but unused channels still get no
write). -/
theorem Configure_device_first_then_channels (s : LTCState) :
    (s.sleeping = false →
      (Configure s).2 =
        [BusEvent.writeByte 0xF0 (TEMP_UNIT__C ||| REJECTION__50_60_HZ),
         BusEvent.writeByte 0xFF 0]
          ++ (configChannels.map (channelConfigTrace s)).flatten) ∧
    ∀ c : Fin 21, s.channel_assignments c = UNUSED_CHANNEL →
      ∀ d : Nat, BusEvent.assignWrite c.val d ∉ (Configure s).2 := by
  constructor
  · intro hs
    rw [Configure_trace_active s hs]
    rfl
  · intro c hc d hmem
    cases hs : s.sleeping
    · rw [Configure_trace_active s hs] at hmem
      exact assignWrite_not_mem_body hc hmem
    · rw [Configure_trace_sleeping s hs] at hmem
      rcases List.mem_append.1 hmem with h1 | h2
      · rcases List.mem_append.1 h1 with hp | hb
        · simp at hp
        · exact assignWrite_not_mem_body hc hb
      · exact assignWrite_not_mem_body hc h2

/-- C3 witness: the amended statement at a fresh (Active) manager — the
ordered trace shape, and no write addressed to the unused channel 7. -/
theorem Configure_device_first_then_channels_witness :
    (Configure exState).2 =
      [BusEvent.writeByte 0xF0 (TEMP_UNIT__C ||| REJECTION__50_60_HZ),
       BusEvent.writeByte 0xFF 0]
        ++ (configChannels.map (channelConfigTrace exState)).flatten ∧
    BusEvent.assignWrite 7 AssignSenseResistor_data ∉ (Configure exState).2 :=
  ⟨(Configure_device_first_then_channels exState).1 (by decide),
   (Configure_device_first_then_channels exState).2 ⟨7, by omega⟩ (by decide)
     AssignSenseResistor_data⟩

/-- C7: when a channel in 1..20 carries an assignment value outside the
supported enumeration, `Configure` reports the error on the serial
console, and still issues the configuration write of every channel whose
assignment calls for one — the error branch skips no other channel. -/
theorem Configure_reports_and_continues (s : LTCState) (c : Fin 21)
    (hc : 1 ≤ c.val) (hbad : 4 ≤ s.channel_assignments c) :
    BusEvent.serialErr ∈ (Configure s).2 ∧
    ∀ d : Fin 21, 1 ≤ d.val → ∀ w : Nat,
      expectedAssignData s d = some w →
      BusEvent.assignWrite d.val w ∈ (Configure s).2 := by
  constructor
  · refine mem_body_mem_Configure
      (mem_flatten_body (mem_configChannels c hc) ?_)
    rw [channelConfigTrace_of_bad hbad]
    simp
  · intro d hd w hw
    refine mem_body_mem_Configure
      (mem_flatten_body (mem_configChannels d hd) ?_)
    rw [channelConfigTrace_of_expected hw]
    simp

/-- C7 witness: with channel 7 holding the out-of-enumeration value 9, the
error is reported and channel 2 (the RTD sense resistor) is still
configured. -/
theorem Configure_reports_and_continues_witness :
    BusEvent.serialErr ∈ (Configure badState).2 ∧
    BusEvent.assignWrite 2 AssignSenseResistor_data ∈
      (Configure badState).2 := by
  have h := Configure_reports_and_continues badState ⟨7, by omega⟩
    (by decide) (by decide)
  exact ⟨h.1, h.2 ⟨2, by omega⟩ (by decide) AssignSenseResistor_data
    (by decide)⟩

/-- C4: a blocking measurement issued while asleep triggers an implicit
wake-up before the measurement proceeds: after `Sleep()`,
`MeasureChannel(c)` is defined, leaves the device Active
(`_sleeping = false`), and its trace begins with the reset pulse (low,
settle, high, settle) followed by the complete configuration-sequencer
trace; any measurement events come only after. -/
theorem Sleep_then_MeasureChannel_wakes (s : LTCState) (o : BusOracle)
    (c : Nat) (hc : c < 21) :
    ((MeasureChannel c (Sleep s).1 o).get
        (MeasureChannel_isSome (Sleep s).1 o hc)).2.1.sleeping = false ∧
    ([BusEvent.resetLow, BusEvent.delayMs 100, BusEvent.resetHigh,
      BusEvent.delayMs 200]
        ++ (Configure_body { s with sleeping := false }).2) <+:
      ((MeasureChannel c (Sleep s).1 o).get
        (MeasureChannel_isSome (Sleep s).1 o hc)).2.2 := by
  constructor
  · simp [MeasureChannel, Sleep, WakeUp, Configure_body, hc]
  · simp only [MeasureChannel, Sleep, WakeUp, hc, dif_pos, Option.get_some]
    refine List.IsPrefix.trans ?_ (List.prefix_append _ _)
    simp [Configure_body]

/-- C4 witness: `Sleep()` then `MeasureChannel(7)` on a fresh manager. -/
theorem Sleep_then_MeasureChannel_wakes_witness :
    ((MeasureChannel 7 (Sleep exState).1 exOracleBusy).get
        (MeasureChannel_isSome (Sleep exState).1 exOracleBusy
          (by omega))).2.1.sleeping = false ∧
    ([BusEvent.resetLow, BusEvent.delayMs 100, BusEvent.resetHigh,
      BusEvent.delayMs 200]
        ++ (Configure_body { exState with sleeping := false }).2) <+:
      ((MeasureChannel 7 (Sleep exState).1 exOracleBusy).get
        (MeasureChannel_isSome (Sleep exState).1 exOracleBusy
          (by omega))).2.2 :=
  Sleep_then_MeasureChannel_wakes exState exOracleBusy 7 (by omega)

/-- C9: for a channel in 1..20, `MeasureChannel` leaves the assignment
table untouched, changes no temperature entry other than that channel's,
and stores exactly the value it returns. -/
theorem MeasureChannel_frame (c : Nat) (h1 : 1 ≤ c) (h2 : c < 21)
    (s : LTCState) (o : BusOracle) :
    ((MeasureChannel c s o).get
        (MeasureChannel_isSome s o h2)).2.1.channel_assignments =
      s.channel_assignments ∧
    (∀ d : Fin 21, d.val ≠ c →
      ((MeasureChannel c s o).get
          (MeasureChannel_isSome s o h2)).2.1.channel_temperatures d =
        s.channel_temperatures d) ∧
    ((MeasureChannel c s o).get
        (MeasureChannel_isSome s o h2)).2.1.channel_temperatures ⟨c, h2⟩ =
      ((MeasureChannel c s o).get (MeasureChannel_isSome s o h2)).1 := by
  refine ⟨?_, fun d hd => ?_, ?_⟩
  · cases hs : s.sleeping <;>
      simp [MeasureChannel, h2, hs, WakeUp, Configure_body]
  · cases hs : s.sleeping <;>
      simp [MeasureChannel, h2, hs, WakeUp, Configure_body,
        Function.update_apply, Fin.ext_iff, hd]
  · cases hs : s.sleeping <;>
      simp [MeasureChannel, h2, hs, WakeUp, Configure_body,
        Function.update_apply]

/-- C9 witness: measuring channel 7 of a fresh manager leaves the
assignment table intact and channel 3's temperature unchanged. -/
theorem MeasureChannel_frame_witness :
    ((MeasureChannel 7 exState exOracleBusy).get
        (MeasureChannel_isSome exState exOracleBusy
          (by omega))).2.1.channel_assignments =
      exState.channel_assignments ∧
    ((MeasureChannel 7 exState exOracleBusy).get
        (MeasureChannel_isSome exState exOracleBusy
          (by omega))).2.1.channel_temperatures ⟨3, by omega⟩ =
      exState.channel_temperatures ⟨3, by omega⟩ :=
  ⟨(MeasureChannel_frame 7 (by decide) (by omega) exState exOracleBusy).1,
   (MeasureChannel_frame 7 (by decide) (by omega) exState
      exOracleBusy).2.1 ⟨3, by omega⟩ (by decide)⟩
